import Mathlib

/-!
Verification of the heuristic form discovery and fill engine of webPilot
(`src/assignment.js`).

The engine's page-side logic (the bodies of the `page.evaluate` calls and the
surrounding control flow of the tools `find_and_fill_all_fields`, `fill_input`,
`submit_form`, `get_page_info`, `find_contact_section`, `find_auth_form`) is
embedded shallowly:

* a document is a list of forms, each holding the controls the engine's
  `querySelectorAll` calls would enumerate, in document order;
* JavaScript truthiness on strings (`a || b`) becomes `jsOr`;
* the case-insensitive keyword regexes (`/email/i` etc., plain alternations of
  literal words in the source) become case-insensitive substring tests;
* the Playwright calls that can reject (click, fill, inputValue, evaluate,
  waitForSelector) are supplied as explicit environments: a fill attempt either
  observes a value or raises a message, a click either succeeds or raises, an
  evaluate is an `Except`-value;
* tool results are the returned records/strings of the source, plus - for
  `submit_form` - an explicit trace of which forms had their native `submit()`
  invoked, so that "no form was actually submitted" is expressible.
-/

/-- JavaScript `a || b` on strings: the first operand unless it is empty. -/
def jsOr (a b : String) : String := if a == "" then b else a

/-- Character-list prefix test. -/
def chStarts : List Char → List Char → Bool
  | [], _ => true
  | _ :: _, [] => false
  | p :: ps, c :: cs => p == c && chStarts ps cs

/-- Character-list substring test. -/
def chHas (pat : List Char) : List Char → Bool
  | [] => chStarts pat []
  | c :: cs => chStarts pat (c :: cs) || chHas pat cs

/-- Case-sensitive substring test on strings (CSS `[attr*="v"]` matching). -/
def containsSub (s pat : String) : Bool := chHas pat.data s.data

/-- Lower-case every character of a list. -/
def lowerChars : List Char → List Char
  | [] => []
  | c :: cs => c.toLower :: lowerChars cs

/-- Lower-case a string (structural recursion, evaluable by the kernel). -/
def lowerStr (s : String) : String := String.mk (lowerChars s.data)

/-- A case-insensitive alternation regex `/k1|k2|.../i.test s`: some keyword
(given lower-case) occurs in `s` ignoring case. -/
def kwTest (kws : List String) (s : String) : Bool :=
  kws.any (fun k => containsSub (lowerStr s) k)

/-- Characters of a string up to the first space. -/
def takeTok : List Char → List Char
  | [] => []
  | c :: cs => if c == ' ' then [] else c :: takeTok cs

/-- JavaScript `className.split(" ")[0]`: the first space-delimited token
(possibly empty when the string is empty or starts with a space). -/
def firstClassToken (s : String) : String := String.mk (takeTok s.data)

/-- One form control as the scan of `find_and_fill_all_fields` sees it:
`tag` is `tagName.toLowerCase()`, `typ` the raw DOM `type` property, the
attribute strings default to `""` when absent, `visible` is
`offsetParent !== null`. -/
structure FieldEl where
  tag : String
  typ : String
  name : String
  id : String
  placeholder : String
  value : String
  required : Bool
  visible : Bool
deriving DecidableEq

/-- One `<form>` element: its `id`, `className` and the `input, textarea,
select` descendants in document order. -/
structure Form where
  id : String
  className : String
  fields : List FieldEl
deriving DecidableEq

/-- The string `field.name || field.placeholder || field.id` the keyword
regexes of `find_and_fill_all_fields` are tested against. -/
def fieldCtx (f : FieldEl) : String := jsOr f.name (jsOr f.placeholder f.id)

/-- The selector synthesized for a field (src/assignment.js lines 601-609):
`#id` when `id` is non-empty, else `[name="name"]` when `name` is non-empty,
else `form:nth-of-type(formIndex+1) tag:nth-of-type(fieldIndex+1)` where
`fieldIndex` is the field's position among all scanned controls of the form. -/
def fieldSelector (formIndex fieldIndex : Nat) (f : FieldEl) : String :=
  if f.id != "" then "#" ++ f.id
  else if f.name != "" then "[name=\"" ++ f.name ++ "\"]"
  else "form:nth-of-type(" ++ toString (formIndex + 1) ++ ") " ++ f.tag
    ++ ":nth-of-type(" ++ toString (fieldIndex + 1) ++ ")"

/-- The field record built inside the `page.evaluate` of
`find_and_fill_all_fields` (lines 592-634): raw attributes, the synthesized
selector, and the classification flags. -/
structure FieldDesc where
  tagName : String
  type : String
  name : String
  id : String
  placeholder : String
  required : Bool
  value : String
  selector : String
  fieldIndex : Nat
  isVisible : Bool
  isEmail : Bool
  isPassword : Bool
  isUsername : Bool
  isName : Bool
  isPhone : Bool
  isMessage : Bool
  isSubmit : Bool
  isButton : Bool
deriving DecidableEq

/-- Build the descriptor of one field, mirroring lines 592-634 of the source:
`type` is `field.type || "text"` while the flags test the raw `type`. -/
def mkFieldDesc (formIndex fieldIndex : Nat) (f : FieldEl) : FieldDesc where
  tagName := f.tag
  type := jsOr f.typ "text"
  name := f.name
  id := f.id
  placeholder := f.placeholder
  required := f.required
  value := f.value
  selector := fieldSelector formIndex fieldIndex f
  fieldIndex := fieldIndex
  isVisible := f.visible
  isEmail := f.typ == "email" || kwTest ["email"] (fieldCtx f)
  isPassword := f.typ == "password"
  isUsername := kwTest ["username", "user", "login"] (fieldCtx f)
  isName := kwTest ["name", "fullname", "firstname", "lastname"] (fieldCtx f)
    && f.typ != "username"
  isPhone := kwTest ["phone", "tel", "mobile"] (fieldCtx f)
  isMessage := kwTest ["message", "comment", "description", "details"] (fieldCtx f)
    || f.tag == "textarea"
  isSubmit := f.typ == "submit"
  isButton := f.typ == "button" || f.tag == "button"

/-- Descriptors of a field list, indexed from `i` (the `map` with index of the
source before its visibility filter). -/
def buildDescs (formIndex : Nat) : Nat → List FieldEl → List FieldDesc
  | _, [] => []
  | i, f :: fs => mkFieldDesc formIndex i f :: buildDescs formIndex (i + 1) fs

/-- The fillable-field filter of line 636-638: visible and neither
submit-typed nor button-like. -/
def isFillable (d : FieldDesc) : Bool := d.isVisible && !d.isSubmit && !d.isButton

/-- The selector synthesized for a form (lines 644-647): `#id` when `id` is
non-empty; otherwise the template `` `.${className.split(" ")[0]}` `` which -
beginning with a dot - is always truthy, so the `form:nth-of-type(...)`
alternative after `||` is unreachable. -/
def formSelectorOf (formIndex : Nat) (f : Form) : String :=
  if f.id != "" then "#" ++ f.id
  else jsOr ("." ++ firstClassToken f.className)
    ("form:nth-of-type(" ++ toString (formIndex + 1) ++ ")")

/-- The per-form scan record of `find_and_fill_all_fields` (lines 640-649). -/
structure FormScan where
  formIndex : Nat
  formId : String
  formClass : String
  formSelector : String
  fields : List FieldDesc
deriving DecidableEq

/-- Scan one form: build all descriptors, keep the fillable ones. -/
def scanForm (formIndex : Nat) (f : Form) : FormScan where
  formIndex := formIndex
  formId := f.id
  formClass := f.className
  formSelector := formSelectorOf formIndex f
  fields := (buildDescs formIndex 0 f.fields).filter isFillable

/-- Scan a list of forms starting at form index `i`. -/
def scanFormsAux : Nat → List Form → List FormScan
  | _, [] => []
  | i, f :: fs => scanForm i f :: scanFormsAux (i + 1) fs

/-- The `formsData` of `find_and_fill_all_fields`: all scanned forms that
still have at least one fillable field (line 651). -/
def formsData (forms : List Form) : List FormScan :=
  (scanFormsAux 0 forms).filter (fun s => s.fields.length > 0)

/-- The string `field.name || field.placeholder || field.id` of a built descriptor. -/
def descCtx (d : FieldDesc) : String := jsOr d.name (jsOr d.placeholder d.id)

/-- The test-value chain of lines 670-718: the first matching rule wins;
types with no rule (checkbox, radio, select, file, ...) yield `""`. -/
def testValueFor (d : FieldDesc) : String :=
  if d.isEmail then "testuser@example.com"
  else if d.isPassword then "Test123"
  else if d.isUsername then "testuser"
  else if d.isName then
    if kwTest ["first"] (descCtx d) then "John"
    else if kwTest ["last"] (descCtx d) then "Doe"
    else "John Doe"
  else if d.isPhone then "+1-555-123-4567"
  else if d.isMessage then "This is a test message for form automation testing."
  else if d.type == "number" then "123"
  else if d.type == "url" then "https://example.com"
  else if d.type == "date" then "2024-01-01"
  else if d.type == "text" || d.type == "" then
    if kwTest ["company", "organization"] (descCtx d) then "Test Company"
    else if kwTest ["subject", "title"] (descCtx d) then "Test Subject"
    else if kwTest ["address"] (descCtx d) then "123 Test Street, Test City, TC 12345"
    else "Test Value"
  else ""

/-- Outcome of the Playwright interaction that fills one field: either the
value observed by `inputValue` after typing, or the message of the exception
one of the calls raised. -/
inductive FillAttempt where
  | ok (observed : String)
  | err (msg : String)
deriving DecidableEq

/-- One entry of `filledFields` (lines 746-768). -/
structure FilledField where
  selector : String
  type : String
  expectedValue : String
  actualValue : String
  success : Bool
  error : Option String
deriving DecidableEq

/-- Process one descriptor in the fill loop (lines 667-771): when the
determined test value is empty the field is skipped with no record; otherwise
the interaction outcome becomes a `FilledField`, an exception being caught
into a failed record. -/
def fillOneField (env : FieldDesc → FillAttempt) (d : FieldDesc) :
    Option FilledField :=
  if testValueFor d == "" then none
  else some (match env d with
    | .ok obs =>
      { selector := d.selector, type := d.type, expectedValue := testValueFor d
        actualValue := obs, success := obs == testValueFor d, error := none }
    | .err m =>
      { selector := d.selector, type := d.type, expectedValue := testValueFor d
        actualValue := "", success := false, error := some m })

/-- The two nested fill loops: forms in order, each form's fillable fields in
document order. -/
def fillForms (env : FieldDesc → FillAttempt) : List FormScan → List FilledField
  | [] => []
  | fs :: rest => fs.fields.filterMap (fillOneField env) ++ fillForms env rest

/-- The record returned by `find_and_fill_all_fields` (lines 774-780). -/
structure FillAllResult where
  message : String
  filledFields : List FilledField
  formsFound : Nat
  fieldsProcessed : Nat
  successfulFields : Nat
deriving DecidableEq

/-- Tool `find_and_fill_all_fields` over already-resolved forms: the no-forms
string of line 657, or the result record. -/
def findAndFillAllFields (env : FieldDesc → FillAttempt) (forms : List Form) :
    Sum FillAllResult String :=
  if (formsData forms).length == 0 then
    .inr "No forms with fillable fields found on the page"
  else
    .inl
      { message := "Successfully processed " ++ toString (formsData forms).length
          ++ " forms and attempted to fill "
          ++ toString (fillForms env (formsData forms)).length ++ " fields"
        filledFields := fillForms env (formsData forms)
        formsFound := (formsData forms).length
        fieldsProcessed := (fillForms env (formsData forms)).length
        successfulFields :=
          ((fillForms env (formsData forms)).filter (fun f => f.success)).length }

/-! ### `fill_input` (src/assignment.js lines 137-218)

The Playwright layer of one single-field fill is abstracted into an
environment: `locateError` is the message of an exception raised anywhere in
the wait/scroll/click/clear/type/first-read phase, `typedValue` the value
`inputValue` observes after character-by-character typing, `retryError` the
message of an exception raised by the `page.fill` retry or the read after it,
and `retryValue` the value observed after the retry. -/

structure FillInputEnv where
  locateError : Option String
  typedValue : String
  retryError : Option String
  retryValue : String
deriving DecidableEq

/-- The string returned by `fill_input`: the success message of line 209
(carrying the selector, the intended text and a verified value) or the
failure message of line 215. -/
inductive FillInputResult where
  | success (selector text verified : String)
  | failure (selector msg : String)
deriving DecidableEq

/-- Render the result as the literal return string of the source. -/
def renderFillResult : FillInputResult → String
  | .success s t v =>
    "Successfully filled input " ++ s ++ " with: " ++ t ++ " (verified: " ++ v ++ ")"
  | .failure s m => "Failed to fill input " ++ s ++ ": " ++ m

/-- Tool `fill_input` (lines 145-217): after typing, the observed value is compared
with the target; on mismatch `page.fill` is invoked once (the retried flag in
the second component), but the return statement of line 209 is reached
regardless and reports the pre-retry observed value. An exception anywhere is
caught into the failure message. -/
def fillInput (env : FillInputEnv) (selector text : String) :
    FillInputResult × Bool :=
  match env.locateError with
  | some m => (.failure selector m, false)
  | none =>
    let actual := env.typedValue
    if actual != text then
      match env.retryError with
      | some m => (.failure selector m, true)
      | none => (.success selector text actual, true)
    else (.success selector text actual, false)

/-! ### `submit_form` (src/assignment.js lines 788-941) -/

/-- An element of a form as the submit scan sees it: `hasType` states whether
a `type` attribute is present (for the `button:not([type])` selector),
`type` is its value. -/
structure Clickable where
  tag : String
  hasType : Bool
  type : String
  id : String
  className : String
  onclick : String
  value : String
  textContent : String
  visible : Bool
  disabled : Bool
deriving DecidableEq

/-- A form as the submit scan sees it: its `id` and the candidate elements it
contains, in document order. -/
structure SForm where
  id : String
  elems : List Clickable
deriving DecidableEq

/-- Matching the explicit-submit selector list of line 821:
`button[type="submit"], input[type="submit"], button:not([type]),
button[type="button"]`. -/
def isExplicitSubmit (b : Clickable) : Bool :=
  (b.tag == "button" && b.hasType && b.type == "submit") ||
  (b.tag == "input" && b.hasType && b.type == "submit") ||
  (b.tag == "button" && !b.hasType) ||
  (b.tag == "button" && b.hasType && b.type == "button")

/-- Matching the attribute-heuristic selector list of line 845:
`[onclick*="submit"], [class*="submit"], [id*="submit"]`. -/
def isHeuristicSubmit (b : Clickable) : Bool :=
  containsSub b.onclick "submit" || containsSub b.className "submit" ||
  containsSub b.id "submit"

/-- One discovered submission control (lines 827-838 / 850-861). -/
structure SubmitCandidate where
  kind : String
  selector : String
  text : String
  formIndex : Nat
deriving DecidableEq

/-- The text `btn.textContent?.trim() || btn.value || ""`; the model supplies
`textContent` already trimmed. -/
def candText (b : Clickable) : String := jsOr b.textContent (jsOr b.value "")

/-- Selector for an explicit submit button (lines 829-835). -/
def submitBtnSelector (formIndex btnIndex : Nat) (b : Clickable) : String :=
  if b.id != "" then "#" ++ b.id
  else if b.className != "" then "." ++ firstClassToken b.className
  else "form:nth-of-type(" ++ toString (formIndex + 1) ++ ") button:nth-of-type("
    ++ toString (btnIndex + 1) ++ ")"

/-- Selector for a heuristic clickable (lines 852-858). -/
def heurSelector (formIndex elemIndex : Nat) (b : Clickable) : String :=
  if b.id != "" then "#" ++ b.id
  else if b.className != "" then "." ++ firstClassToken b.className
  else "form:nth-of-type(" ++ toString (formIndex + 1)
    ++ ") [onclick]:nth-of-type(" ++ toString (elemIndex + 1) ++ ")"

/-- Candidates from the matched explicit buttons, indexed from `i`; only
visible ones are pushed (line 825), with no check of `disabled`. -/
def explicitCandsAux (fi : Nat) : Nat → List Clickable → List SubmitCandidate
  | _, [] => []
  | i, b :: bs =>
    if b.visible then
      { kind := "submit-button", selector := submitBtnSelector fi i b
        text := candText b, formIndex := fi } :: explicitCandsAux fi (i + 1) bs
    else explicitCandsAux fi (i + 1) bs

/-- Candidates from the matched heuristic clickables, indexed from `i`; only
visible, non-disabled ones are pushed (line 849). -/
def heuristicCandsAux (fi : Nat) : Nat → List Clickable → List SubmitCandidate
  | _, [] => []
  | i, b :: bs =>
    if b.visible && !b.disabled then
      { kind := "clickable-submit", selector := heurSelector fi i b
        text := candText b, formIndex := fi } :: heuristicCandsAux fi (i + 1) bs
    else heuristicCandsAux fi (i + 1) bs

/-- Explicit submit candidates of one form. -/
def explicitCands (fi : Nat) (f : SForm) : List SubmitCandidate :=
  explicitCandsAux fi 0 (f.elems.filter isExplicitSubmit)

/-- Heuristic submit candidates of one form. -/
def heuristicCands (fi : Nat) (f : SForm) : List SubmitCandidate :=
  heuristicCandsAux fi 0 (f.elems.filter isHeuristicSubmit)

/-- All candidates of one form: explicit ones first (lines 818-840), then the
heuristic ones (lines 842-863). -/
def candsOfForm (fi : Nat) (f : SForm) : List SubmitCandidate :=
  explicitCands fi f ++ heuristicCands fi f

/-- Candidates of a form list, forms in order. -/
def submitCandidatesAux : Nat → List SForm → List SubmitCandidate
  | _, [] => []
  | i, f :: fs => candsOfForm i f ++ submitCandidatesAux (i + 1) fs

/-- All submit candidates of the scanned scope. -/
def submitCandidates (forms : List SForm) : List SubmitCandidate :=
  submitCandidatesAux 0 forms

/-- Resolution `document.querySelector(formSelector)` restricted to the form elements of
the model: the first form whose non-empty `id` renders the given `#id`
selector. -/
def resolveSForm (forms : List SForm) (s : String) : Option SForm :=
  forms.find? (fun f => f.id != "" && ("#" ++ f.id == s))

/-- The scoping of both evaluate calls of `submit_form` (lines 809-812 and
922-924): with a selector, the singleton resolved form (or nothing); without,
every form of the document. -/
def scopedForms (forms : List SForm) : Option String → List SForm
  | none => forms
  | some s =>
    match resolveSForm forms s with
    | some f => [f]
    | none => []

/-- The click loop of lines 878-917: the first candidate whose click does not
raise wins; a raising click is caught and the loop continues. -/
def tryClicks (clickEnv : SubmitCandidate → Option String) :
    List SubmitCandidate → Option SubmitCandidate
  | [] => none
  | c :: cs =>
    match clickEnv c with
    | none => some c
    | some _ => tryClicks clickEnv cs

/-- The programmatic fallback's `forEach` (lines 925-927): invoke `submit()`
on each form in order; a raising `submit()` aborts the remaining ones. Returns
the forms whose `submit()` was invoked and the message of the exception, if
any. -/
def progSubmitRun (throws : SForm → Option String) :
    List SForm → List SForm × Option String
  | [] => ([], none)
  | f :: fs =>
    match throws f with
    | some m => ([f], some m)
    | none =>
      let r := progSubmitRun throws fs
      (f :: r.1, r.2)

/-- The observable outcome of `submit_form`: the returned string, the
candidate whose click succeeded (if any), and the forms whose native
`submit()` was invoked by the programmatic fallback. -/
structure SubmitOutcome where
  message : String
  clicked : Option SubmitCandidate
  progSubmitted : List SForm
deriving DecidableEq

/-- Tool `submit_form` (lines 801-940). `docScan` is the document at the time of
the candidate scan, `docFb` the (possibly changed) document at the time of the
programmatic fallback; `clickEnv` gives the exception a candidate's click
raises, if any, `throws` likewise for a form's native `submit()`. -/
def submitForm (formSel : Option String) (docScan docFb : List SForm)
    (clickEnv : SubmitCandidate → Option String)
    (throws : SForm → Option String) : SubmitOutcome :=
  let cands := submitCandidates (scopedForms docScan formSel)
  if cands.length == 0 then
    { message := "No submit buttons found on the page", clicked := none
      progSubmitted := [] }
  else
    match tryClicks clickEnv cands with
    | some c =>
      { message := "Successfully submitted form by clicking: " ++ c.selector
          ++ " (\"" ++ c.text ++ "\")"
        clicked := some c, progSubmitted := [] }
    | none =>
      let r := progSubmitRun throws (scopedForms docFb formSel)
      match r.2 with
      | some m =>
        { message := "Failed to submit form: All methods failed. Last error: " ++ m
          clicked := none, progSubmitted := r.1 }
      | none =>
        { message := "Successfully submitted form programmatically"
          clicked := none, progSubmitted := r.1 }

/-! ### Contact and auth detectors (`get_page_info`, `find_contact_section`,
`find_auth_form`) -/

/-- The contact keyword regex `/name|email|message|subject|phone/i` shared by
lines 308 and 374. -/
def contactKw : List String := ["name", "email", "message", "subject", "phone"]

/-- Flag `hasContactForm` of `get_page_info` (lines 306-313): some input of some
form whose `name || placeholder` (the id is never consulted) matches the
contact keywords; the scan covers `input, select, textarea`. -/
def hasContactForm (forms : List Form) : Bool :=
  forms.any (fun f =>
    f.fields.any (fun g => kwTest contactKw (jsOr g.name g.placeholder)))

/-- The contact forms of `find_contact_section` (lines 370-378): forms with
some `input, textarea` descendant whose `name || placeholder || id` matches
the contact keywords. -/
def contactFormsOf (forms : List Form) : List Form :=
  forms.filter (fun f =>
    (f.fields.filter (fun g => g.tag == "input" || g.tag == "textarea")).any
      (fun g => kwTest contactKw (jsOr g.name (jsOr g.placeholder g.id))))

/-- The auth-form filter of `find_auth_form` (lines 467-479): `auth-sada` in
class or id, or some input whose `name || placeholder || id || type` matches
the auth keywords. -/
def isAuthForm (f : Form) : Bool :=
  containsSub (lowerStr f.className) "auth-sada" ||
  containsSub (lowerStr f.id) "auth-sada" ||
  (f.fields.filter (fun g => g.tag == "input")).any (fun g =>
    kwTest ["email", "username", "password", "login", "signin"]
      (jsOr g.name (jsOr g.placeholder (jsOr g.id g.typ))))

/-! ### Tool boundaries (§6 of the spec)

Each tool's `execute` either wraps its body in `try`/`catch` (converting any
rejection of the underlying Playwright calls into a returned string) or does
not. The rejection-or-value of a page-layer call is an `Except String`
value; a tool that lets it escape has an `Except` result whose `.error`
case models the exception crossing the tool boundary. -/

/-- Tool `get_page_info` (lines 248-321): `page.title()` and the `page.evaluate`
run with NO try/catch around them; a rejection of either propagates out of
`execute`. The structured result keeps the parts of the page data the claims
concern. -/
def getPageInfoOp (titleRes : Except String String) (url : String)
    (evalRes : Except String (List Form)) :
    Except String (String × String × Bool) :=
  match titleRes with
  | .error m => .error m
  | .ok t =>
    match evalRes with
    | .error m => .error m
    | .ok d => .ok (t, url, hasContactForm d)

/-- Tool `find_contact_section` (lines 345-425): a bare `page.evaluate` with no
try/catch; its rejection propagates. -/
def findContactSectionOp (evalRes : Except String (List Form)) :
    Except String (List Form) :=
  match evalRes with
  | .error m => .error m
  | .ok d => .ok (contactFormsOf d)

/-- Tool `find_auth_form` (lines 433-557): a bare `page.evaluate` with no
try/catch; its rejection propagates. -/
def findAuthFormOp (evalRes : Except String (List Form)) :
    Except String (List Form) :=
  match evalRes with
  | .error m => .error m
  | .ok d => .ok (d.filter isAuthForm)

/-- Tool `find_and_fill_all_fields` with its outer try/catch (lines 573-784): a
rejection of the scanning evaluate becomes the failure string of line 783. -/
def findAndFillAllFieldsOp (scanRes : Except String (List Form))
    (env : FieldDesc → FillAttempt) : Sum FillAllResult String :=
  match scanRes with
  | .error m => .inr ("Failed to find and fill fields: " ++ m)
  | .ok forms => findAndFillAllFields env forms

/-- Tool `submit_form` with its outer try/catch (lines 801-939): a rejection of
the scanning evaluate becomes the failure string of line 938. -/
def submitFormOp (scanRes : Except String (List SForm)) (formSel : Option String)
    (docFb : List SForm) (clickEnv : SubmitCandidate → Option String)
    (throws : SForm → Option String) : SubmitOutcome :=
  match scanRes with
  | .error m =>
    { message := "Failed to submit form: " ++ m, clicked := none
      progSubmitted := [] }
  | .ok docScan => submitForm formSel docScan docFb clickEnv throws

/-! ### Resolution of synthesized field selectors (claim about FieldDescriptor
selectors re-locating their element)

The three shapes `fieldSelector` can emit are reified as `FieldSel`;
`resolveFieldSel` is `document.querySelector` restricted to those shapes over
the modelled document (forms and their controls are the only elements
carrying `id`/`name`; forms precede their fields in document order; the
controls of a form are its only same-tag siblings, so `:nth-of-type` counts
within `Form.fields`). -/

inductive FieldSel where
  | byId (s : String)
  | byName (s : String)
  | structural (formNo : Nat) (tag : String) (typeNo : Nat)
deriving DecidableEq

/-- The structured selector `fieldSelector` renders (1-based positions). -/
def mkFieldSel (formIndex fieldIndex : Nat) (f : FieldEl) : FieldSel :=
  if f.id != "" then .byId f.id
  else if f.name != "" then .byName f.name
  else .structural (formIndex + 1) f.tag (fieldIndex + 1)

/-- Rendering a structured selector to its selector string. -/
def renderFieldSel : FieldSel → String
  | .byId s => "#" ++ s
  | .byName s => "[name=\"" ++ s ++ "\"]"
  | .structural k tag j =>
    "form:nth-of-type(" ++ toString k ++ ") " ++ tag ++ ":nth-of-type("
      ++ toString j ++ ")"

/-- An element of the modelled document: a form, or the control at (form
index, field index). -/
inductive DocElem where
  | formElem (fi : Nat) (f : Form)
  | fieldElem (fi gi : Nat) (g : FieldEl)
deriving DecidableEq

/-- The id an element exposes to `#id` matching. -/
def elemId : DocElem → String
  | .formElem _ f => f.id
  | .fieldElem _ _ g => g.id

/-- The name an element exposes to `[name="..."]` matching (the modelled
forms carry no `name` attribute). -/
def elemName : DocElem → String
  | .formElem _ _ => ""
  | .fieldElem _ _ g => g.name

/-- The field elements of one form in document order, indexed from `j`. -/
def fieldElemsAux (fi : Nat) : Nat → List FieldEl → List DocElem
  | _, [] => []
  | j, g :: gs => .fieldElem fi j g :: fieldElemsAux fi (j + 1) gs

/-- All elements of the document in document order, forms indexed from `i`:
each form element followed by its controls. -/
def docElemsAux : Nat → List Form → List DocElem
  | _, [] => []
  | i, f :: fs =>
    .formElem i f :: (fieldElemsAux i 0 f.fields ++ docElemsAux (i + 1) fs)

/-- All elements of the document in document order. -/
def docElems (forms : List Form) : List DocElem := docElemsAux 0 forms

/-- The index (into the field list) of the `j`-th (1-based) control with the
given tag, as `tag:nth-of-type(j)` counts it. -/
def nthOfTagIdx (tag : String) : Nat → Nat → List FieldEl → Option (Nat × FieldEl)
  | _, _, [] => none
  | j, idx, g :: gs =>
    if g.tag == tag then
      if j == 1 then some (idx, g) else nthOfTagIdx tag (j - 1) (idx + 1) gs
    else nthOfTagIdx tag j (idx + 1) gs

/-- Resolution `document.querySelector` on the three synthesized selector shapes: first
element with the id, first element with the name, or the `typeNo`-th same-tag
control of the `formNo`-th form. -/
def resolveFieldSel (forms : List Form) : FieldSel → Option DocElem
  | .byId s => (docElems forms).find? (fun e => elemId e == s)
  | .byName s => (docElems forms).find? (fun e => elemName e == s)
  | .structural k tag j =>
    match forms[k - 1]? with
    | none => none
    | some f => (nthOfTagIdx tag j 0 f.fields).map
        (fun r => .fieldElem (k - 1) r.1 r.2)

/-! ### Derived views used only to state properties -/

/-- The scanned fillable fields that the fill loop assigns a non-empty test
value to, over all scanned forms and in document order. -/
def fillableWithValue : List FormScan → List FieldDesc
  | [] => []
  | fs :: rest =>
    fs.fields.filter (fun d => testValueFor d != "") ++ fillableWithValue rest

/-- The fillable-field count of a scanned document, as the claim about batch
completeness counts it: every visible, non-submit, non-button control. -/
def fillableCount (forms : List Form) : Nat :=
  ((formsData forms).map (fun fs => fs.fields.length)).sum

/-! ## Helper lemmas -/

/-- A string with non-empty character data is not the empty string. -/
theorem str_ne_empty_of_data (s : String) (h : s.data ≠ []) : s ≠ "" := by
  intro e
  apply h
  rw [e]

/-- Appending to a string with non-empty data stays non-empty. -/
theorem append_ne_empty (a b : String) (h : a.data ≠ []) : a ++ b ≠ "" := by
  apply str_ne_empty_of_data
  rw [String.data_append]
  intro e
  exact h (List.append_eq_nil.mp e).1

/-- Function `find?` returns the unique element of the list satisfying the predicate. -/
theorem find_eq_of_unique {α : Type} (p : α → Bool) (a : α) (l : List α)
    (hmem : a ∈ l) (hpa : p a = true) (huniq : ∀ b ∈ l, p b = true → b = a) :
    l.find? p = some a := by
  induction l with
  | nil => exact absurd hmem (List.not_mem_nil a)
  | cons x xs ih =>
    by_cases hx : p x = true
    · rw [List.find?_cons_of_pos _ hx, huniq x (List.mem_cons_self x xs) hx]
    · rw [List.find?_cons_of_neg _ (by simpa using hx)]
      apply ih
      · rcases List.mem_cons.mp hmem with h | h
        · exact absurd (h ▸ hpa) hx
        · exact h
      · intro b hb hpb
        exact huniq b (List.mem_cons_of_mem x hb) hpb

/-- A descriptor with a non-empty test value yields a `FilledField` carrying
its selector and that expected value. -/
theorem fillOneField_eq_some (env : FieldDesc → FillAttempt) (d : FieldDesc)
    (h : testValueFor d ≠ "") :
    ∃ r, fillOneField env d = some r ∧ r.selector = d.selector ∧
      r.expectedValue = testValueFor d := by
  unfold fillOneField
  rw [if_neg (by simpa using h)]
  cases env d with
  | ok obs => exact ⟨_, rfl, rfl, rfl⟩
  | err m => exact ⟨_, rfl, rfl, rfl⟩

/-- A descriptor with an empty test value is skipped. -/
theorem fillOneField_eq_none (env : FieldDesc → FillAttempt) (d : FieldDesc)
    (h : testValueFor d = "") : fillOneField env d = none := by
  unfold fillOneField
  rw [if_pos (by simpa using h)]

/-- The records of one form's fill loop project, selector and expected value,
to exactly the fillable fields with non-empty test value, in order. -/
theorem filterMap_fill_proj (env : FieldDesc → FillAttempt) (l : List FieldDesc) :
    (l.filterMap (fillOneField env)).map (fun r => (r.selector, r.expectedValue))
      = (l.filter (fun d => testValueFor d != "")).map
          (fun d => (d.selector, testValueFor d)) := by
  induction l with
  | nil => rfl
  | cons d ds ih =>
    rw [List.filterMap_cons, List.filter_cons]
    by_cases h : testValueFor d = ""
    · rw [fillOneField_eq_none env d h]
      have h2 : (testValueFor d != "") = false := by simp [h]
      rw [h2]
      simpa using ih
    · obtain ⟨r, hr, hsel, hexp⟩ := fillOneField_eq_some env d h
      rw [hr]
      have h2 : (testValueFor d != "") = true := by simpa using h
      rw [h2]
      simp only [if_true, List.map_cons, hsel, hexp, ih]

/-- Lifting the projection to the whole document scan. -/
theorem fillForms_proj (env : FieldDesc → FillAttempt) (fd : List FormScan) :
    (fillForms env fd).map (fun r => (r.selector, r.expectedValue))
      = (fillableWithValue fd).map (fun d => (d.selector, testValueFor d)) := by
  induction fd with
  | nil => rfl
  | cons fs rest ih =>
    simp only [fillForms, fillableWithValue, List.map_append, ih,
      filterMap_fill_proj]


/-! ## Claim C1: batch fill completeness -/

/-- C1 (amended): for every form processed by `find_and_fill_all_fields`, one
`FillResult` entry is returned per fillable field WHOSE DETERMINED TEST VALUE
IS NON-EMPTY, in document order and regardless of individual field failures,
together with the count of successes; fillable fields for which no test value
rule fires (checkbox, radio, select, file, ... controls with no matching
keyword) are skipped without an entry. -/
theorem c1_batch_fill_completeness (env : FieldDesc → FillAttempt)
    (forms : List Form) (res : FillAllResult)
    (h : findAndFillAllFields env forms = .inl res) :
    res.filledFields.map (fun r => (r.selector, r.expectedValue))
      = (fillableWithValue (formsData forms)).map
          (fun d => (d.selector, testValueFor d)) ∧
    res.filledFields.length = (fillableWithValue (formsData forms)).length ∧
    res.fieldsProcessed = res.filledFields.length ∧
    res.successfulFields
      = (res.filledFields.filter (fun r => r.success)).length := by
  unfold findAndFillAllFields at h
  by_cases hc : ((formsData forms).length == 0) = true
  · rw [if_pos hc] at h
    exact absurd h (by simp)
  · rw [if_neg hc] at h
    injection h with h
    subst h
    refine ⟨fillForms_proj env (formsData forms), ?_, rfl, rfl⟩
    have := congrArg List.length (fillForms_proj env (formsData forms))
    simpa using this

/-- C1 witness: a one-field contact-like form processed with a faithful fill
environment satisfies the amended batch contract. -/
theorem c1_batch_fill_completeness_witness :
    (FillAllResult.mk
      "Successfully processed 1 forms and attempted to fill 1 fields"
      [⟨"[name=\"email\"]", "text", "testuser@example.com",
        "testuser@example.com", true, none⟩] 1 1 1).filledFields.map
        (fun r => (r.selector, r.expectedValue))
      = (fillableWithValue (formsData
          [⟨"", "", [⟨"input", "text", "email", "", "", "", false, true⟩]⟩])).map
          (fun d => (d.selector, testValueFor d)) ∧
    (FillAllResult.mk
      "Successfully processed 1 forms and attempted to fill 1 fields"
      [⟨"[name=\"email\"]", "text", "testuser@example.com",
        "testuser@example.com", true, none⟩] 1 1 1).filledFields.length
      = (fillableWithValue (formsData
          [⟨"", "", [⟨"input", "text", "email", "", "", "", false, true⟩]⟩])).length ∧
    (FillAllResult.mk
      "Successfully processed 1 forms and attempted to fill 1 fields"
      [⟨"[name=\"email\"]", "text", "testuser@example.com",
        "testuser@example.com", true, none⟩] 1 1 1).fieldsProcessed
      = (FillAllResult.mk
      "Successfully processed 1 forms and attempted to fill 1 fields"
      [⟨"[name=\"email\"]", "text", "testuser@example.com",
        "testuser@example.com", true, none⟩] 1 1 1).filledFields.length ∧
    (FillAllResult.mk
      "Successfully processed 1 forms and attempted to fill 1 fields"
      [⟨"[name=\"email\"]", "text", "testuser@example.com",
        "testuser@example.com", true, none⟩] 1 1 1).successfulFields
      = ((FillAllResult.mk
      "Successfully processed 1 forms and attempted to fill 1 fields"
      [⟨"[name=\"email\"]", "text", "testuser@example.com",
        "testuser@example.com", true, none⟩] 1 1 1).filledFields.filter
          (fun r => r.success)).length :=
  c1_batch_fill_completeness
    (fun _ => FillAttempt.ok "testuser@example.com")
    [⟨"", "", [⟨"input", "text", "email", "", "", "", false, true⟩]⟩]
    _ (by decide)

/-- C1 counterexample: a form whose single fillable field is a visible
`<select>` control (type `select-one`, no keyword-matching attributes) has
one fillable field, yet `find_and_fill_all_fields` returns zero `FillResult`
entries for it - the claim's "exactly N entries" fails at N = 1. -/
theorem c1_counterexample :
    fillableCount [⟨"", "", [⟨"select", "select-one", "", "", "", "", false, true⟩]⟩]
      = 1 ∧
    findAndFillAllFields (fun _ => FillAttempt.ok "")
      [⟨"", "", [⟨"select", "select-one", "", "", "", "", false, true⟩]⟩]
      = .inl ⟨"Successfully processed 1 forms and attempted to fill 0 fields",
          [], 1, 0, 0⟩ := by
  decide

/-! ## Claim C2: type-attribute precedence for password fields -/

/-- C2 (amended): a `password`-typed field is fill-valued as `Password`
(`"Test123"`) only when the email keyword does not match its
`name || placeholder || id`; the email keyword test runs BEFORE the
password-type test, so it - not the type attribute - takes precedence. -/
theorem c2_password_value (f : FieldEl) (fi gi : Nat)
    (htyp : f.typ = "password")
    (hkw : kwTest ["email"] (fieldCtx f) = false) :
    testValueFor (mkFieldDesc fi gi f) = "Test123" := by
  have he : (mkFieldDesc fi gi f).isEmail = false := by
    simp [mkFieldDesc, htyp, hkw]
  have hp : (mkFieldDesc fi gi f).isPassword = true := by
    simp [mkFieldDesc, htyp]
  unfold testValueFor
  rw [he, hp]
  simp

/-- C2 witness: a password field named `pwd` is fill-valued `"Test123"`. -/
theorem c2_password_value_witness :
    (FieldEl.mk "input" "password" "pwd" "" "" "" false true).typ = "password" ∧
    kwTest ["email"] (fieldCtx ⟨"input", "password", "pwd", "", "", "", false, true⟩)
      = false ∧
    testValueFor (mkFieldDesc 0 0 ⟨"input", "password", "pwd", "", "", "", false, true⟩)
      = "Test123" :=
  ⟨rfl, by decide, c2_password_value _ 0 0 rfl (by decide)⟩

/-- C2 counterexample: the field with `type="password"` and
`name="username_or_email"` named by the claim is fill-valued as Email
(`"testuser@example.com"`), not as Password (`"Test123"`): the keyword
heuristic outranks the explicit type attribute. -/
theorem c2_counterexample :
    (mkFieldDesc 0 0
      ⟨"input", "password", "username_or_email", "", "", "", false, true⟩).isPassword
      = true ∧
    testValueFor (mkFieldDesc 0 0
      ⟨"input", "password", "username_or_email", "", "", "", false, true⟩)
      = "testuser@example.com" ∧
    testValueFor (mkFieldDesc 0 0
      ⟨"input", "password", "username_or_email", "", "", "", false, true⟩)
      ≠ "Test123" := by
  decide

/-! ## Claim C4: single-field fill retry semantics -/

/-- C4 (amended): when the character-by-character attempt yields a value
different from the target, `fill_input` performs exactly one direct-set retry,
but its reported outcome ignores the retry entirely: absent exceptions the
returned message is always the success message carrying the PRE-retry observed
value, whatever the retry produced. -/
theorem c4_fill_retry_ignored (env : FillInputEnv) (selector text : String)
    (hloc : env.locateError = none) (hretry : env.retryError = none) :
    fillInput env selector text
      = (.success selector text env.typedValue, env.typedValue != text) := by
  unfold fillInput
  rw [hloc]
  cases hbt : env.typedValue != text with
  | false => simp [hbt]
  | true => simp [hbt, hretry]

/-- C4 witness: a mismatched first attempt with a clean environment reports
success with the pre-retry value and sets the retried flag. -/
theorem c4_fill_retry_ignored_witness :
    fillInput ⟨none, "wrong", none, "target"⟩ "#email" "target"
      = (.success "#email" "target" "wrong", true) := by
  rw [c4_fill_retry_ignored ⟨none, "wrong", none, "target"⟩ "#email" "target" rfl rfl]
  decide

/-- C4 counterexample: the typed value `"wrong"` mismatches the target
`"target"`, the direct-set retry observes exactly the target (so it
succeeded), yet the reported result carries verified value `"wrong"` - not
the intended value - and is a success message either way: succeeded/failed is
NOT decided by the post-retry value. -/
theorem c4_counterexample :
    (FillInputEnv.mk none "wrong" none "target").retryValue = "target" ∧
    (fillInput ⟨none, "wrong", none, "target"⟩ "#pw" "target").1
      = .success "#pw" "target" "wrong" ∧
    "wrong" ≠ "target" ∧
    renderFillResult (fillInput ⟨none, "wrong", none, "target"⟩ "#pw" "target").1
      = "Successfully filled input #pw with: target (verified: wrong)" := by
  decide

/-! ## Claim C5: selector synthesis chains -/

/-- A string starting with a non-empty string is non-empty. -/
theorem append_ne_empty_left (a b : String) (h : a ≠ "") : a ++ b ≠ "" := by
  intro e
  apply h
  have hd : (a ++ b).data = [] := by rw [e]
  rw [String.data_append] at hd
  have ha : a.data = [] := (List.append_eq_nil.mp hd).1
  cases a with
  | mk l =>
    cases ha
    rfl

/-- Boolean inequality from propositional inequality of strings. -/
theorem bne_true_of_ne {a b : String} (h : a ≠ b) : (a != b) = true := by
  simpa using h

/-- Boolean inequality is false on equal strings. -/
theorem bne_false_of_eq {a b : String} (h : a = b) : (a != b) = false := by
  simp [h]

/-- C5 (amended): every synthesized selector is a non-empty string, but the
preference chains differ by element sort: buttons follow
`#id` > `.firstClassToken` > structural; FIELDS follow
`#id` > `[name="name"]` > structural (the class is never consulted); FORMS
follow `#id` > `"." ++ firstClassToken className` where the concatenation is
always non-empty, so the structural fallback is unreachable (an empty
className yields the bare selector `"."`). -/
theorem c5_selector_chains (fi gi bi : Nat) (f : FieldEl) (fo : Form)
    (b : Clickable) :
    fieldSelector fi gi f ≠ "" ∧
    formSelectorOf fi fo ≠ "" ∧
    submitBtnSelector fi bi b ≠ "" ∧
    (f.id ≠ "" → fieldSelector fi gi f = "#" ++ f.id) ∧
    (f.id = "" → f.name ≠ "" →
      fieldSelector fi gi f = "[name=\"" ++ f.name ++ "\"]") ∧
    (f.id = "" → f.name = "" →
      fieldSelector fi gi f = "form:nth-of-type(" ++ toString (fi + 1) ++ ") "
        ++ f.tag ++ ":nth-of-type(" ++ toString (gi + 1) ++ ")") ∧
    (fo.id = "" → formSelectorOf fi fo = "." ++ firstClassToken fo.className) ∧
    (b.id ≠ "" → submitBtnSelector fi bi b = "#" ++ b.id) ∧
    (b.id = "" → b.className ≠ "" →
      submitBtnSelector fi bi b = "." ++ firstClassToken b.className) ∧
    (b.id = "" → b.className = "" →
      submitBtnSelector fi bi b = "form:nth-of-type(" ++ toString (fi + 1)
        ++ ") button:nth-of-type(" ++ toString (bi + 1) ++ ")") := by
  have hdot : ∀ s : String, "." ++ s ≠ "" :=
    fun s => append_ne_empty_left "." s (by decide)
  refine ⟨?_, ?_, ?_, ?_, ?_, ?_, ?_, ?_, ?_, ?_⟩
  · unfold fieldSelector
    split
    · exact append_ne_empty_left "#" f.id (by decide)
    · split
      · repeat apply append_ne_empty_left
        decide
      · repeat apply append_ne_empty_left
        decide
  · unfold formSelectorOf
    split
    · exact append_ne_empty_left "#" fo.id (by decide)
    · unfold jsOr
      rw [if_neg (by simpa using hdot (firstClassToken fo.className))]
      exact hdot _
  · unfold submitBtnSelector
    split
    · exact append_ne_empty_left "#" b.id (by decide)
    · split
      · exact hdot _
      · repeat apply append_ne_empty_left
        decide
  · intro h
    unfold fieldSelector
    rw [if_pos (bne_true_of_ne h)]
  · intro h1 h2
    unfold fieldSelector
    rw [if_neg (by simp [bne_false_of_eq h1]), if_pos (bne_true_of_ne h2)]
  · intro h1 h2
    unfold fieldSelector
    rw [if_neg (by simp [bne_false_of_eq h1]), if_neg (by simp [bne_false_of_eq h2])]
  · intro h
    unfold formSelectorOf jsOr
    rw [if_neg (by simp [bne_false_of_eq h]),
      if_neg (by simpa using hdot (firstClassToken fo.className))]
  · intro h
    unfold submitBtnSelector
    rw [if_pos (bne_true_of_ne h)]
  · intro h1 h2
    unfold submitBtnSelector
    rw [if_neg (by simp [bne_false_of_eq h1]), if_pos (bne_true_of_ne h2)]
  · intro h1 h2
    unfold submitBtnSelector
    rw [if_neg (by simp [bne_false_of_eq h1]), if_neg (by simp [bne_false_of_eq h2])]

/-- C5 witness: the chains evaluated at concrete elements - a field with a
name but no id, a form with classes but no id, a button with an id. -/
theorem c5_selector_chains_witness :
    fieldSelector 2 3 ⟨"input", "text", "user", "", "", "", false, true⟩
      = "[name=\"user\"]" ∧
    formSelectorOf 1 ⟨"", "login-form extra", []⟩
      = "." ++ firstClassToken "login-form extra" ∧
    submitBtnSelector 0 0 ⟨"button", true, "submit", "go", "", "", "", "Go", true, false⟩
      = "#go" :=
  ⟨(c5_selector_chains 2 3 0 ⟨"input", "text", "user", "", "", "", false, true⟩
      ⟨"", "login-form extra", []⟩
      ⟨"button", true, "submit", "go", "", "", "", "Go", true, false⟩).2.2.2.2.1
      rfl (by decide),
   (c5_selector_chains 2 3 0 ⟨"input", "text", "user", "", "", "", false, true⟩
      ⟨"", "login-form extra", []⟩
      ⟨"button", true, "submit", "go", "", "", "", "Go", true, false⟩).2.2.2.2.2.2.1
      rfl,
   (c5_selector_chains 2 3 0 ⟨"input", "text", "user", "", "", "", false, true⟩
      ⟨"", "login-form extra", []⟩
      ⟨"button", true, "submit", "go", "", "", "", "Go", true, false⟩).2.2.2.2.2.2.2.1
      (by decide)⟩

/-- C5 counterexample: a field with empty id, non-empty name gets the selector
`[name="user"]` - which no stage of the claimed `#id` > `.firstClassToken` >
structural chain can produce - and a form with empty id and className gets the
bare `"."` instead of the claimed structural `form:nth-of-type(1)` fallback. -/
theorem c5_counterexample :
    fieldSelector 0 0 ⟨"input", "text", "user", "", "", "", false, true⟩
      = "[name=\"user\"]" ∧
    formSelectorOf 0 ⟨"", "", []⟩ = "." ∧
    formSelectorOf 0 ⟨"", "", []⟩ ≠ "form:nth-of-type(1)" := by
  decide

/-! ## Claims C3, C7, C9: the submission locator -/

/-- No heuristic candidate arises from a list of disabled elements. -/
theorem heuristicCandsAux_nil_of_disabled (fi : Nat) :
    ∀ (i : Nat) (l : List Clickable), (∀ b ∈ l, b.disabled = true) →
      heuristicCandsAux fi i l = [] := by
  intro i l
  induction l generalizing i with
  | nil => intro _; rfl
  | cons b bs ih =>
    intro h
    unfold heuristicCandsAux
    have hb : b.disabled = true := h b (List.mem_cons_self b bs)
    rw [hb]
    simp only [Bool.not_true, Bool.and_false, if_false]
    exact ih (i + 1) (fun x hx => h x (List.mem_cons_of_mem b hx))

/-- Every explicit candidate carries kind `submit-button`. -/
theorem explicitCandsAux_kind (fi : Nat) :
    ∀ (i : Nat) (l : List Clickable) (c : SubmitCandidate),
      c ∈ explicitCandsAux fi i l → c.kind = "submit-button" := by
  intro i l
  induction l generalizing i with
  | nil =>
    intro c hc
    unfold explicitCandsAux at hc
    exact absurd hc (List.not_mem_nil c)
  | cons b bs ih =>
    intro c hc
    unfold explicitCandsAux at hc
    by_cases hv : b.visible = true
    · rw [if_pos hv] at hc
      rcases List.mem_cons.mp hc with h | h
      · rw [h]
      · exact ih (i + 1) c h
    · rw [if_neg hv] at hc
      exact ih (i + 1) c hc

/-- Every heuristic candidate carries kind `clickable-submit`. -/
theorem heuristicCandsAux_kind (fi : Nat) :
    ∀ (i : Nat) (l : List Clickable) (c : SubmitCandidate),
      c ∈ heuristicCandsAux fi i l → c.kind = "clickable-submit" := by
  intro i l
  induction l generalizing i with
  | nil =>
    intro c hc
    unfold heuristicCandsAux at hc
    exact absurd hc (List.not_mem_nil c)
  | cons b bs ih =>
    intro c hc
    unfold heuristicCandsAux at hc
    by_cases hv : (b.visible && !b.disabled) = true
    · rw [if_pos hv] at hc
      rcases List.mem_cons.mp hc with h | h
      · rw [h]
      · exact ih (i + 1) c h
    · rw [if_neg hv] at hc
      exact ih (i + 1) c hc

/-- Every visible matched explicit element contributes a `submit-button`
candidate for its form. -/
theorem explicitCandsAux_mem (fi : Nat) :
    ∀ (i : Nat) (l : List Clickable) (b : Clickable), b ∈ l → b.visible = true →
      ∃ c, c ∈ explicitCandsAux fi i l ∧ c.kind = "submit-button" ∧
        c.formIndex = fi := by
  intro i l
  induction l generalizing i with
  | nil => intro b hb; exact absurd hb (List.not_mem_nil b)
  | cons x xs ih =>
    intro b hb hv
    unfold explicitCandsAux
    rcases List.mem_cons.mp hb with h | h
    · rw [← h, if_pos hv]
      exact ⟨_, List.mem_cons_self _ _, rfl, rfl⟩
    · obtain ⟨c, hc, hk, hf⟩ := ih (i + 1) b h hv
      by_cases hx : x.visible = true
      · rw [if_pos hx]
        exact ⟨c, List.mem_cons_of_mem _ hc, hk, hf⟩
      · rw [if_neg hx]
        exact ⟨c, hc, hk, hf⟩

/-- With an all-raising click environment, no candidate click succeeds. -/
theorem tryClicks_none (clickEnv : SubmitCandidate → Option String)
    (h : ∀ c, clickEnv c ≠ none) :
    ∀ l : List SubmitCandidate, tryClicks clickEnv l = none := by
  intro l
  induction l with
  | nil => rfl
  | cons c cs ih =>
    unfold tryClicks
    cases hc : clickEnv c with
    | none => exact absurd hc (h c)
    | some m => exact ih

/-- C3 (amended): a submission scope whose only discovered control is a
disabled attribute-heuristic clickable yields NO candidates - the disabled
element is skipped - and `submit_form` then returns the early
"No submit buttons found on the page" string WITHOUT attempting the
programmatic form submission (the fallback is only reachable after failed
clicks on at least one candidate). -/
theorem c3_disabled_clickable_no_fallback :
    (∀ (formSel : Option String) (docScan docFb : List SForm)
      (clickEnv : SubmitCandidate → Option String) (throws : SForm → Option String),
      submitCandidates (scopedForms docScan formSel) = [] →
      submitForm formSel docScan docFb clickEnv throws
        = ⟨"No submit buttons found on the page", none, []⟩) ∧
    (∀ (fi : Nat) (f : SForm),
      (∀ b ∈ f.elems, isExplicitSubmit b = false) →
      (∀ b ∈ f.elems, b.disabled = true) →
      candsOfForm fi f = []) := by
  constructor
  · intro formSel docScan docFb clickEnv throws h
    unfold submitForm
    rw [h]
    rfl
  · intro fi f hexp hdis
    unfold candsOfForm explicitCands heuristicCands
    have h1 : f.elems.filter isExplicitSubmit = [] := by
      rw [List.filter_eq_nil_iff]
      intro b hb
      simp [hexp b hb]
    have h2 : heuristicCandsAux fi 0 (f.elems.filter isHeuristicSubmit) = [] := by
      apply heuristicCandsAux_nil_of_disabled
      intro b hb
      exact hdis b (List.mem_of_mem_filter hb)
    rw [h1, h2]
    rfl

/-- C3 witness: the empty-candidate early return and the
disabled-clickable-elimination evaluated on the concrete scope of the claim. -/
theorem c3_disabled_clickable_no_fallback_witness :
    submitForm none [⟨"f1", [⟨"div", false, "", "", "submit-btn", "", "", "", true, true⟩]⟩]
        [⟨"f1", [⟨"div", false, "", "", "submit-btn", "", "", "", true, true⟩]⟩]
        (fun _ => none) (fun _ => none)
      = ⟨"No submit buttons found on the page", none, []⟩ ∧
    candsOfForm 0 ⟨"f1", [⟨"div", false, "", "", "submit-btn", "", "", "", true, true⟩]⟩
      = [] :=
  ⟨c3_disabled_clickable_no_fallback.1 none _ _ _ _ (by decide),
   c3_disabled_clickable_no_fallback.2 0 _ (by decide) (by decide)⟩

/-- C3 counterexample: with only a disabled heuristic clickable in scope,
`submit_form` returns the "No submit buttons found" string, invokes no
programmatic submission (the trace of natively submitted forms is empty), and
in particular does NOT return the programmatic-success message the claimed
fallback would produce. -/
theorem c3_counterexample :
    submitForm none
        [⟨"f1", [⟨"div", false, "", "", "submit-btn", "", "", "", true, true⟩]⟩]
        [⟨"f1", [⟨"div", false, "", "", "submit-btn", "", "", "", true, true⟩]⟩]
        (fun _ => none) (fun _ => none)
      = ⟨"No submit buttons found on the page", none, []⟩ ∧
    isHeuristicSubmit ⟨"div", false, "", "", "submit-btn", "", "", "", true, true⟩
      = true ∧
    (Clickable.mk "div" false "" "" "submit-btn" "" "" "" true true).disabled
      = true ∧
    (submitForm none
        [⟨"f1", [⟨"div", false, "", "", "submit-btn", "", "", "", true, true⟩]⟩]
        [⟨"f1", [⟨"div", false, "", "", "submit-btn", "", "", "", true, true⟩]⟩]
        (fun _ => none) (fun _ => none)).message
      ≠ "Successfully submitted form programmatically" := by
  decide

/-- C7 (amended): within one form the submission locator enumerates every
explicit-category candidate before every attribute-heuristic candidate, but
category (1) is WIDER than the claimed explicit-submit shapes: besides
submit-typed buttons, submit-typed inputs and un-typed buttons it also
enumerates `button[type="button"]` elements as `submit-button` candidates. -/
theorem c7_submit_priority :
    (∀ (fi : Nat) (f : SForm) (i j : Nat)
      (hi : i < (candsOfForm fi f).length) (hj : j < (candsOfForm fi f).length),
      (candsOfForm fi f)[i].kind = "clickable-submit" →
      (candsOfForm fi f)[j].kind = "submit-button" → j < i) ∧
    (∀ (fi : Nat) (f : SForm) (b : Clickable), b ∈ f.elems → b.visible = true →
      b.tag = "button" → b.hasType = true → b.type = "button" →
      ∃ c, c ∈ candsOfForm fi f ∧ c.kind = "submit-button" ∧ c.formIndex = fi) := by
  constructor
  · intro fi f i j hi hj hci hcj
    have hlen : (candsOfForm fi f).length
        = (explicitCands fi f).length + (heuristicCands fi f).length := by
      unfold candsOfForm
      exact List.length_append _ _
    have hjlt : j < (explicitCands fi f).length := by
      by_contra hge
      push_neg at hge
      have hj2 : j - (explicitCands fi f).length < (heuristicCands fi f).length := by
        omega
      have : (candsOfForm fi f)[j] = (heuristicCands fi f)[j - (explicitCands fi f).length] := by
        unfold candsOfForm
        rw [List.getElem_append_right hge]
      rw [this] at hcj
      have hmem : (heuristicCands fi f)[j - (explicitCands fi f).length]
          ∈ heuristicCands fi f := List.getElem_mem hj2
      have hk := heuristicCandsAux_kind fi 0 (f.elems.filter isHeuristicSubmit)
        _ hmem
      rw [hcj] at hk
      exact absurd hk (by decide)
    have hige : (explicitCands fi f).length ≤ i := by
      by_contra hlt
      push_neg at hlt
      have : (candsOfForm fi f)[i] = (explicitCands fi f)[i] := by
        unfold candsOfForm
        rw [List.getElem_append_left]
      rw [this] at hci
      have hmem : (explicitCands fi f)[i] ∈ explicitCands fi f :=
        List.getElem_mem hlt
      have hk := explicitCandsAux_kind fi 0 (f.elems.filter isExplicitSubmit)
        _ hmem
      rw [hci] at hk
      exact absurd hk (by decide)
    omega
  · intro fi f b hb hv htag hht htyp
    have hmatch : isExplicitSubmit b = true := by
      simp [isExplicitSubmit, htag, hht, htyp]
    obtain ⟨c, hc, hk, hf⟩ := explicitCandsAux_mem fi 0
      (f.elems.filter isExplicitSubmit) b (List.mem_filter.mpr ⟨hb, hmatch⟩) hv
    exact ⟨c, List.mem_append_left _ hc, hk, hf⟩

/-- C7 witness: a form holding an explicit submit button and a heuristic
clickable attempts the button (index 0) before the clickable (index 1), and a
visible `button[type="button"]` contributes a `submit-button` candidate. -/
theorem c7_submit_priority_witness :
    (0 : Nat) < 1 ∧
    ∃ c, c ∈ candsOfForm 0 ⟨"", [⟨"button", true, "button", "bb", "", "", "", "B", true, false⟩]⟩
      ∧ c.kind = "submit-button" ∧ c.formIndex = 0 :=
  ⟨c7_submit_priority.1 0
      ⟨"", [⟨"button", true, "submit", "sb", "", "", "", "Send", true, false⟩,
            ⟨"div", false, "", "", "submit-link", "", "", "", true, false⟩]⟩
      1 0 (by decide) (by decide) (by decide) (by decide),
   c7_submit_priority.2 0
      ⟨"", [⟨"button", true, "button", "bb", "", "", "", "B", true, false⟩]⟩
      ⟨"button", true, "button", "bb", "", "", "", "B", true, false⟩
      (by decide) rfl rfl rfl rfl⟩

/-- C7 counterexample: a visible `button` with explicit `type="button"` - none
of the claim's three explicit-submit shapes, and matching no attribute
heuristic either - is nevertheless enumerated as a category-(1)
`submit-button` candidate, so category (1) does not consist of exactly the
claimed shapes. -/
theorem c7_counterexample :
    candsOfForm 0 ⟨"", [⟨"button", true, "button", "btn1", "", "", "", "Click", true, false⟩]⟩
      = [⟨"submit-button", "#btn1", "Click", 0⟩] ∧
    ((Clickable.mk "button" true "button" "btn1" "" "" "" "Click" true false).tag == "button"
      && (Clickable.mk "button" true "button" "btn1" "" "" "" "Click" true false).hasType
      && (Clickable.mk "button" true "button" "btn1" "" "" "" "Click" true false).type == "submit")
      = false ∧
    ((Clickable.mk "button" true "button" "btn1" "" "" "" "Click" true false).tag == "input"
      && (Clickable.mk "button" true "button" "btn1" "" "" "" "Click" true false).hasType
      && (Clickable.mk "button" true "button" "btn1" "" "" "" "Click" true false).type == "submit")
      = false ∧
    ((Clickable.mk "button" true "button" "btn1" "" "" "" "Click" true false).tag == "button"
      && !(Clickable.mk "button" true "button" "btn1" "" "" "" "Click" true false).hasType)
      = false ∧
    isHeuristicSubmit ⟨"button", true, "button", "btn1", "", "", "", "Click", true, false⟩
      = false := by
  decide

/-- C9 (confirmed): when candidates existed but every click raised, and the
supplied form selector matches no element of the document the programmatic
fallback queries, the fallback invokes `submit()` on no form at all yet
`submit_form` still returns "Successfully submitted form programmatically" -
its success is decided solely by the evaluate not raising. -/
theorem c9_programmatic_fallback_no_form (s : String) (docScan docFb : List SForm)
    (clickEnv : SubmitCandidate → Option String) (throws : SForm → Option String)
    (hcands : submitCandidates (scopedForms docScan (some s)) ≠ [])
    (hclicks : ∀ c, clickEnv c ≠ none)
    (hmiss : resolveSForm docFb s = none) :
    submitForm (some s) docScan docFb clickEnv throws
      = ⟨"Successfully submitted form programmatically", none, []⟩ := by
  unfold submitForm
  have h0 : ((submitCandidates (scopedForms docScan (some s))).length == 0) = false := by
    simp only [beq_eq_false_iff_ne, Ne, List.length_eq_zero]
    exact hcands
  have hsc : scopedForms docFb (some s) = [] := by
    show (match resolveSForm docFb s with
      | some f => [f]
      | none => ([] : List SForm)) = []
    rw [hmiss]
  rw [if_neg (by simp [h0])]
  rw [tryClicks_none clickEnv hclicks, hsc]
  rfl

/-- C9 witness: one scanned form with a visible submit button, every click
raising, and a fallback document in which the selector `#f1` resolves to
nothing: no form is natively submitted, yet the success string is returned. -/
theorem c9_programmatic_fallback_no_form_witness :
    submitForm (some "#f1")
        [⟨"f1", [⟨"button", true, "submit", "sb", "", "", "", "Go", true, false⟩]⟩]
        [] (fun _ => some "target detached") (fun _ => none)
      = ⟨"Successfully submitted form programmatically", none, []⟩ :=
  c9_programmatic_fallback_no_form "#f1"
    [⟨"f1", [⟨"button", true, "submit", "sb", "", "", "", "Go", true, false⟩]⟩]
    [] (fun _ => some "target detached") (fun _ => none)
    (by decide) (fun c h => Option.noConfusion h) rfl

/-! ## Claim C8: tool boundaries -/

/-- C8 (amended): the operations wrapped in try/catch - fill one field,
fill-all-fields, submit - convert every page-layer exception into a returned
result or failure string; but the scan/locate operations `get_page_info`,
`find_contact_section` and `find_auth_form` have no handler and propagate a
rejection of `page.title()`/`page.evaluate` past their boundary. -/
theorem c8_tool_boundaries :
    (∀ (m url : String) (evalRes : Except String (List Form)),
      getPageInfoOp (.error m) url evalRes = .error m) ∧
    (∀ (t url m : String), getPageInfoOp (.ok t) url (.error m) = .error m) ∧
    (∀ m : String, findContactSectionOp (.error m) = .error m) ∧
    (∀ m : String, findAuthFormOp (.error m) = .error m) ∧
    (∀ (m : String) (env : FieldDesc → FillAttempt),
      findAndFillAllFieldsOp (.error m) env
        = .inr ("Failed to find and fill fields: " ++ m)) ∧
    (∀ (m : String) (formSel : Option String) (docFb : List SForm)
      (clickEnv : SubmitCandidate → Option String) (throws : SForm → Option String),
      submitFormOp (.error m) formSel docFb clickEnv throws
        = ⟨"Failed to submit form: " ++ m, none, []⟩) ∧
    (∀ (env : FillInputEnv) (sel text m : String), env.locateError = some m →
      (fillInput env sel text).1 = .failure sel m) := by
  refine ⟨fun m url e => rfl, fun t url m => rfl, fun m => rfl, fun m => rfl,
    fun m env => rfl, fun m fs d c t => rfl, ?_⟩
  intro env sel text m h
  unfold fillInput
  rw [h]

/-- C8 witness: a rejected evaluate escapes `get_page_info` unchanged, while
the same kind of rejection inside `fill_input` is caught into its failure
string. -/
theorem c8_tool_boundaries_witness :
    getPageInfoOp (.error "SyntaxError: not a valid selector") "https://x"
        (.ok []) = .error "SyntaxError: not a valid selector" ∧
    (fillInput ⟨some "Timeout 5000ms exceeded", "", none, ""⟩ "#email" "x").1
      = .failure "#email" "Timeout 5000ms exceeded" :=
  ⟨c8_tool_boundaries.1 "SyntaxError: not a valid selector" "https://x" (.ok []),
   c8_tool_boundaries.2.2.2.2.2.2 ⟨some "Timeout 5000ms exceeded", "", none, ""⟩
     "#email" "x" "Timeout 5000ms exceeded" rfl⟩

/-- C8 counterexample: `get_page_info` and `find_contact_section` let a
page-evaluation exception cross the tool boundary (the operation's outcome IS
the error, not a structured result or message string), refuting the claim that
every exposed engine operation never propagates an exception. -/
theorem c8_counterexample :
    getPageInfoOp (.error "page.evaluate: Execution context was destroyed")
        "https://example.com" (.ok [])
      = .error "page.evaluate: Execution context was destroyed" ∧
    findContactSectionOp (.error "page.evaluate: Execution context was destroyed")
      = .error "page.evaluate: Execution context was destroyed" ∧
    findAuthFormOp (.error "page.evaluate: Execution context was destroyed")
      = .error "page.evaluate: Execution context was destroyed" :=
  ⟨rfl, rfl, rfl⟩

/-! ## Claim C10: the two contact-form detectors disagree -/

/-- Function `jsOr` with an empty first operand yields the second. -/
theorem jsOr_empty (b : String) : jsOr "" b = b := by
  simp [jsOr]

/-- C10 (confirmed): `get_page_info` tests only `name || placeholder` of each
control while `find_contact_section` tests `name || placeholder || id`; hence
on a document whose only contact signal is a field id (an input or textarea
with contact-matching id and empty name and placeholder, every control's
`name || placeholder` matching nothing), `find_contact_section` reports the
form as a contact form while `get_page_info` reports `hasContactForm = false`. -/
theorem c10_contact_detectors_disagree (forms : List Form) (form : Form)
    (g : FieldEl) (hform : form ∈ forms) (hg : g ∈ form.fields)
    (htag : g.tag = "input" ∨ g.tag = "textarea")
    (hname : g.name = "") (hph : g.placeholder = "")
    (hid : kwTest contactKw g.id = true)
    (hnone : ∀ f2 ∈ forms, ∀ g2 ∈ f2.fields,
      kwTest contactKw (jsOr g2.name g2.placeholder) = false) :
    hasContactForm forms = false ∧ form ∈ contactFormsOf forms := by
  constructor
  · simp only [hasContactForm, List.any_eq_false, Bool.not_eq_true]
    exact hnone
  · unfold contactFormsOf
    apply List.mem_filter.mpr
    refine ⟨hform, ?_⟩
    apply List.any_eq_true.mpr
    refine ⟨g, List.mem_filter.mpr ⟨hg, ?_⟩, ?_⟩
    · rcases htag with h | h <;> simp [h]
    · rw [hname, hph, jsOr_empty, jsOr_empty]
      exact hid

/-- C10 witness: the claim's own example - a one-form document whose single
input carries `id="email"` and nothing else. -/
theorem c10_contact_detectors_disagree_witness :
    hasContactForm [⟨"", "", [⟨"input", "text", "", "email", "", "", false, true⟩]⟩]
      = false ∧
    (Form.mk "" "" [⟨"input", "text", "", "email", "", "", false, true⟩])
      ∈ contactFormsOf
          [⟨"", "", [⟨"input", "text", "", "email", "", "", false, true⟩]⟩] :=
  c10_contact_detectors_disagree
    [⟨"", "", [⟨"input", "text", "", "email", "", "", false, true⟩]⟩]
    ⟨"", "", [⟨"input", "text", "", "email", "", "", false, true⟩]⟩
    ⟨"input", "text", "", "email", "", "", false, true⟩
    (by decide) (by decide) (Or.inl rfl) rfl rfl (by decide) (by decide)

/-! ## Claim C6: FieldDescriptor selectors re-locating their element -/

/-- A synthesized field selector is never the empty string. -/
theorem fieldSelector_ne_empty (fi gi : Nat) (f : FieldEl) :
    fieldSelector fi gi f ≠ "" := by
  unfold fieldSelector
  split
  · exact append_ne_empty_left "#" f.id (by decide)
  · split
    · repeat apply append_ne_empty_left
      decide
    · repeat apply append_ne_empty_left
      decide

/-- The string selector of a field is the rendering of its structured
selector. -/
theorem fieldSelector_eq_render (fi gi : Nat) (f : FieldEl) :
    fieldSelector fi gi f = renderFieldSel (mkFieldSel fi gi f) := by
  unfold fieldSelector mkFieldSel
  by_cases h1 : (f.id != "") = true
  · rw [if_pos h1, if_pos h1]
    rfl
  · rw [if_neg h1, if_neg h1]
    by_cases h2 : (f.name != "") = true
    · rw [if_pos h2, if_pos h2]
      rfl
    · rw [if_neg h2, if_neg h2]
      rfl

/-- Every built descriptor comes from an indexed field of the scanned list. -/
theorem buildDescs_mem (fi : Nat) :
    ∀ (k : Nat) (fields : List FieldEl) (d : FieldDesc),
      d ∈ buildDescs fi k fields →
      ∃ gi g, fields[gi]? = some g ∧ d = mkFieldDesc fi (k + gi) g := by
  intro k fields
  induction fields generalizing k with
  | nil =>
    intro d hd
    unfold buildDescs at hd
    exact absurd hd (List.not_mem_nil d)
  | cons g gs ih =>
    intro d hd
    unfold buildDescs at hd
    rcases List.mem_cons.mp hd with h | h
    · exact ⟨0, g, by simp, by rw [Nat.add_zero]; exact h⟩
    · obtain ⟨gi, g2, hget, hd2⟩ := ih (k + 1) d h
      refine ⟨gi + 1, g2, by simpa using hget, ?_⟩
      rw [hd2, Nat.add_assoc, Nat.add_comm 1 gi]

/-- An indexed field appears among the field elements of its form. -/
theorem fieldElemsAux_mem (fi : Nat) :
    ∀ (j gi : Nat) (gs : List FieldEl) (g : FieldEl), gs[gi]? = some g →
      DocElem.fieldElem fi (j + gi) g ∈ fieldElemsAux fi j gs := by
  intro j gi gs
  induction gs generalizing j gi with
  | nil =>
    intro g hg
    simp at hg
  | cons x xs ih =>
    intro g hg
    cases gi with
    | zero =>
      rw [List.getElem?_cons_zero] at hg
      injection hg with hg
      unfold fieldElemsAux
      rw [Nat.add_zero, ← hg]
      exact List.mem_cons_self _ _
    | succ n =>
      rw [List.getElem?_cons_succ] at hg
      unfold fieldElemsAux
      apply List.mem_cons_of_mem
      have h2 := ih (j + 1) n g hg
      have harith : j + 1 + n = j + (n + 1) := by omega
      rw [harith] at h2
      exact h2

/-- The field elements of the `fi`-th form are elements of the document. -/
theorem docElemsAux_mem :
    ∀ (i fi : Nat) (fs : List Form) (form : Form), fs[fi]? = some form →
      ∀ e ∈ fieldElemsAux (i + fi) 0 form.fields, e ∈ docElemsAux i fs := by
  intro i fi fs
  induction fs generalizing i fi with
  | nil =>
    intro form h
    simp at h
  | cons x xs ih =>
    intro form h e he
    cases fi with
    | zero =>
      rw [List.getElem?_cons_zero] at h
      injection h with h
      unfold docElemsAux
      apply List.mem_cons_of_mem
      apply List.mem_append_left
      rw [Nat.add_zero] at he
      rw [← h] at he
      exact he
    | succ n =>
      rw [List.getElem?_cons_succ] at h
      unfold docElemsAux
      apply List.mem_cons_of_mem
      apply List.mem_append_right
      have harith : i + (n + 1) = (i + 1) + n := by omega
      rw [harith] at he
      exact ih (i + 1) n form h e he

/-- The control at (form index, field index) is an element of the document. -/
theorem fieldElem_mem_docElems (forms : List Form) (fi gi : Nat) (form : Form)
    (g : FieldEl) (hform : forms[fi]? = some form)
    (hg : form.fields[gi]? = some g) :
    DocElem.fieldElem fi gi g ∈ docElems forms := by
  have h1 := fieldElemsAux_mem fi 0 gi form.fields g hg
  rw [Nat.zero_add] at h1
  have h2 := docElemsAux_mem 0 fi forms form hform
  rw [Nat.zero_add] at h2
  exact h2 _ h1

/-- C6 (amended): every FieldDescriptor produced by a scan carries a
non-empty selector, built from some indexed control of the form; the selector
re-resolves to exactly that control when it is an id selector whose id is
unique in the document, or a name selector whose name is unique in the
document - but NOT in general: the structural fallback uses the field's index
among ALL scanned controls as an `nth-of-type` position, so it can resolve to
a different control or to nothing (see the counterexample), and duplicate
ids/names resolve to the first match. -/
theorem c6_selector_resolution (forms : List Form) (fi : Nat) (form : Form)
    (d : FieldDesc) (hform : forms[fi]? = some form)
    (hd : d ∈ (scanForm fi form).fields) :
    d.selector ≠ "" ∧
    ∃ gi g, form.fields[gi]? = some g ∧ d = mkFieldDesc fi gi g ∧
      d.selector = renderFieldSel (mkFieldSel fi gi g) ∧
      (g.id ≠ "" →
        (∀ e ∈ docElems forms, elemId e = g.id → e = .fieldElem fi gi g) →
        resolveFieldSel forms (mkFieldSel fi gi g) = some (.fieldElem fi gi g)) ∧
      (g.id = "" → g.name ≠ "" →
        (∀ e ∈ docElems forms, elemName e = g.name → e = .fieldElem fi gi g) →
        resolveFieldSel forms (mkFieldSel fi gi g) = some (.fieldElem fi gi g)) := by
  have hd2 : d ∈ buildDescs fi 0 form.fields := List.mem_of_mem_filter hd
  obtain ⟨gi, g, hget, hdesc⟩ := buildDescs_mem fi 0 form.fields d hd2
  rw [Nat.zero_add] at hdesc
  have hsel : d.selector = fieldSelector fi gi g := by rw [hdesc]; rfl
  constructor
  · rw [hsel]
    exact fieldSelector_ne_empty fi gi g
  · refine ⟨gi, g, hget, hdesc, ?_, ?_, ?_⟩
    · rw [hsel, fieldSelector_eq_render]
    · intro hid huniq
      have hmk : mkFieldSel fi gi g = .byId g.id := by
        unfold mkFieldSel
        rw [if_pos (bne_true_of_ne hid)]
      rw [hmk]
      show (docElems forms).find? (fun e => elemId e == g.id)
        = some (.fieldElem fi gi g)
      apply find_eq_of_unique
      · exact fieldElem_mem_docElems forms fi gi form g hform hget
      · simp [elemId]
      · intro b hb hpb
        exact huniq b hb (by simpa using hpb)
    · intro hid hname huniq
      have hmk : mkFieldSel fi gi g = .byName g.name := by
        unfold mkFieldSel
        rw [if_neg (by simp [bne_false_of_eq hid]), if_pos (bne_true_of_ne hname)]
      rw [hmk]
      show (docElems forms).find? (fun e => elemName e == g.name)
        = some (.fieldElem fi gi g)
      apply find_eq_of_unique
      · exact fieldElem_mem_docElems forms fi gi form g hform hget
      · simp [elemName]
      · intro b hb hpb
        exact huniq b hb (by simpa using hpb)

/-- C6 witness: a one-form document whose single input carries the
document-unique id `user-email`; its descriptor's selector `#user-email`
resolves back to that very control. -/
theorem c6_selector_resolution_witness :
    (mkFieldDesc 0 0 ⟨"input", "text", "", "user-email", "", "", false, true⟩).selector
      ≠ "" ∧
    ∃ gi g,
      (Form.mk "" "" [⟨"input", "text", "", "user-email", "", "", false, true⟩]).fields[gi]?
        = some g ∧
      mkFieldDesc 0 0 ⟨"input", "text", "", "user-email", "", "", false, true⟩
        = mkFieldDesc 0 gi g ∧
      (mkFieldDesc 0 0 ⟨"input", "text", "", "user-email", "", "", false, true⟩).selector
        = renderFieldSel (mkFieldSel 0 gi g) ∧
      (g.id ≠ "" →
        (∀ e ∈ docElems [⟨"", "", [⟨"input", "text", "", "user-email", "", "", false, true⟩]⟩],
          elemId e = g.id → e = .fieldElem 0 gi g) →
        resolveFieldSel [⟨"", "", [⟨"input", "text", "", "user-email", "", "", false, true⟩]⟩]
          (mkFieldSel 0 gi g) = some (.fieldElem 0 gi g)) ∧
      (g.id = "" → g.name ≠ "" →
        (∀ e ∈ docElems [⟨"", "", [⟨"input", "text", "", "user-email", "", "", false, true⟩]⟩],
          elemName e = g.name → e = .fieldElem 0 gi g) →
        resolveFieldSel [⟨"", "", [⟨"input", "text", "", "user-email", "", "", false, true⟩]⟩]
          (mkFieldSel 0 gi g) = some (.fieldElem 0 gi g)) :=
  c6_selector_resolution
    [⟨"", "", [⟨"input", "text", "", "user-email", "", "", false, true⟩]⟩] 0
    ⟨"", "", [⟨"input", "text", "", "user-email", "", "", false, true⟩]⟩
    (mkFieldDesc 0 0 ⟨"input", "text", "", "user-email", "", "", false, true⟩)
    rfl (by decide)

/-- C6 counterexample: in a form holding an input followed by a textarea
(neither with id or name), the textarea's descriptor gets the structural
selector `form:nth-of-type(1) textarea:nth-of-type(2)` - its overall field
index 1 is used as the per-tag position - which resolves to NO element of the
document at the time the descriptor was built, refuting "resolves to exactly
the element it was built from". -/
theorem c6_counterexample :
    ((scanForm 0 ⟨"", "", [⟨"input", "text", "", "", "", "", false, true⟩,
        ⟨"textarea", "textarea", "", "", "", "", false, true⟩]⟩).fields.map
      (fun d => d.selector))
      = ["form:nth-of-type(1) input:nth-of-type(1)",
         "form:nth-of-type(1) textarea:nth-of-type(2)"] ∧
    renderFieldSel (mkFieldSel 0 1 ⟨"textarea", "textarea", "", "", "", "", false, true⟩)
      = "form:nth-of-type(1) textarea:nth-of-type(2)" ∧
    resolveFieldSel [⟨"", "", [⟨"input", "text", "", "", "", "", false, true⟩,
        ⟨"textarea", "textarea", "", "", "", "", false, true⟩]⟩]
      (mkFieldSel 0 1 ⟨"textarea", "textarea", "", "", "", "", false, true⟩)
      = none := by
  decide
